import Mathlib

/-!
Shallow embedding of the scoring engine of `src/gtp.py`
(class `GitHubProfileAnalyzer`).

Modelling conventions:

* Timestamps (`created_at`, `updated_at`) are modelled as integer epoch
  seconds, i.e. the value of `datetime.fromisoformat` after the `Z`
  suffix is stripped; `datetime` comparison is integer comparison.
* `datetime.now()` is modelled as reading the next value of an abstract
  clock stream `clock : Nat → Int`, one fresh reading per comparison,
  exactly as the list comprehensions in `_calculate_activity_metric`
  re-evaluate `datetime.now()` for every element; the event
  comprehension runs first (readings `0, …, len(events) - 1`), the
  repository comprehension second (readings `len(events), …`).
* Python float arithmetic is modelled by exact rational arithmetic;
  Python `round(x, 2)` is modelled by round-half-to-even of `100 * x`,
  and the `.0f` format by round-half-to-even to an integer.
* A Python subscript `repo["language"]` on a mapping that misses the key
  raises `KeyError("language")`, whose `str` is `'language'`.  A
  repository record therefore stores `language : Option (Option String)`
  (`none` = key absent, `some none` = key present with value `None`) and
  the functions that subscript it are `Except`-valued, the error string
  being the wrapped exception text.  `topics` is read with `.get`, so an
  absent key is harmless and is modelled as `Option (List String)`.
* Python truthiness of a string value (`if repo['language']:`) is false
  for both `None` and the empty string; of a list, false for `[]`.
-/

namespace GithubProfileAnalyzer

structure Profile where
  followers : Nat
  following : Nat
  avatar_url : Option String
deriving DecidableEq

structure Repo where
  language : Option (Option String)
  topics : Option (List String)
  forks_count : Nat
  fork : Bool
  has_wiki : Bool
  description : Option String
  has_issues : Bool
  stargazers_count : Nat
  size : Nat
  updated_at : Int
deriving DecidableEq

structure EventRec where
  created_at : Int
deriving DecidableEq

structure Metrics where
  activity : ℚ
  diversity : ℚ
  community : ℚ
  documentation : ℚ
  code_quality : ℚ
deriving DecidableEq

structure Bundle where
  score : ℚ
  metrics : Metrics
  strengths : List String
  weaknesses : List String
  recommendations : List String
  appreciation : String
  avatar_url : String
deriving DecidableEq

/-- Python truthiness of an optional string: `None` and `""` are falsy. -/
def truthy : Option String → Bool
  | none => false
  | some s => s != ""

/-- Round-half-to-even to an integer, Python `round(x)` / `format(x, ".0f")`. -/
def roundHalfEven (x : ℚ) : Int :=
  if x - ⌊x⌋ < 1 / 2 then ⌊x⌋
  else if x - ⌊x⌋ > 1 / 2 then ⌊x⌋ + 1
  else if ⌊x⌋ % 2 = 0 then ⌊x⌋ else ⌊x⌋ + 1

/-- Python `round(x, 2)`. -/
def pyround2 (x : ℚ) : ℚ := (roundHalfEven (x * 100) : ℚ) / 100

/-- The events kept by the comprehension
`[e for e in contributions if datetime.fromisoformat(...) > datetime.now() - timedelta(days=30)]`;
`i` is the index of the next `datetime.now()` reading. -/
def recentEvents (clock : Nat → Int) : List EventRec → Nat → List EventRec
  | [], _ => []
  | e :: es, i =>
    if e.created_at > clock i - 2592000 then e :: recentEvents clock es (i + 1)
    else recentEvents clock es (i + 1)

/-- The repositories kept by the comprehension
`[r for r in repos if datetime.fromisoformat(...) > datetime.now() - timedelta(days=90)]`. -/
def recentRepos (clock : Nat → Int) : List Repo → Nat → List Repo
  | [], _ => []
  | r :: rs, i =>
    if r.updated_at > clock i - 7776000 then r :: recentRepos clock rs (i + 1)
    else recentRepos clock rs (i + 1)

/-- `GitHubProfileAnalyzer._calculate_activity_metric`. -/
def calculate_activity_metric (clock : Nat → Int) (contributions : List EventRec)
    (repos : List Repo) : ℚ :=
  if contributions.isEmpty then 0
  else
    let event_count := (recentEvents clock contributions 0).length
    let repo_count := (recentRepos clock repos contributions.length).length
    let event_score := min ((event_count : ℚ) / 30) 1
    let repo_score := if repos.isEmpty then 0 else min ((repo_count : ℚ) / (repos.length : ℚ)) 1
    event_score * 0.6 + repo_score * 0.4

/-- The set of distinct truthy `language` values, as a duplicate-free list;
errors with the `KeyError` text when a record misses the `language` key. -/
def collect_languages : List Repo → Except String (List String)
  | [] => Except.ok []
  | r :: rs =>
    match r.language with
    | none => Except.error "\x27language\x27"
    | some lang =>
      match collect_languages rs with
      | Except.error e => Except.error e
      | Except.ok rest =>
        match lang with
        | none => Except.ok rest
        | some s =>
          Except.ok (if s = "" then rest else if s ∈ rest then rest else s :: rest)

/-- The set of distinct topic values over all `topics` sequences, as a
duplicate-free list (`repo.get('topics')`, absent key harmless). -/
def collect_topics : List Repo → List String
  | [] => []
  | r :: rs =>
    let rest := collect_topics rs
    match r.topics with
    | none => rest
    | some ts => ts.foldl (fun acc t => if t ∈ acc then acc else t :: acc) rest

/-- `GitHubProfileAnalyzer._calculate_diversity_metric`. -/
def calculate_diversity_metric (repos : List Repo) : Except String ℚ :=
  if repos.isEmpty then Except.ok 0
  else
    match collect_languages repos with
    | Except.error e => Except.error e
    | Except.ok languages =>
      let topics := collect_topics repos
      let language_score := min ((languages.length : ℚ) / 5) 1
      let topic_score := min ((topics.length : ℚ) / 10) 1
      Except.ok (language_score * 0.7 + topic_score * 0.3)

/-- `GitHubProfileAnalyzer._calculate_community_metric`. -/
def calculate_community_metric (profile : Profile) (repos : List Repo) : ℚ :=
  let followers := profile.followers
  let following := profile.following
  let forks := (repos.map Repo.forks_count).sum
  let collaborations := (repos.filter Repo.fork).length
  let follower_score := min ((followers : ℚ) / 100) 1
  let following_score := min ((following : ℚ) / 50) 1
  let fork_score :=
    if repos.isEmpty then 0 else min ((forks : ℚ) / ((repos.length : ℚ) * 5)) 1
  let collab_score :=
    if repos.isEmpty then 0 else min ((collaborations : ℚ) / (repos.length : ℚ)) 1
  follower_score * 0.3 + following_score * 0.2 + fork_score * 0.3 + collab_score * 0.2

/-- `repo['description'] and len(repo['description']) > 20`. -/
def descriptionLong : Option String → Bool
  | none => false
  | some s => s != "" && decide (s.length > 20)

/-- `GitHubProfileAnalyzer._calculate_documentation_metric`. -/
def calculate_documentation_metric (repos : List Repo) : ℚ :=
  if repos.isEmpty then 0
  else
    let wiki_count := (repos.filter Repo.has_wiki).length
    let description_count := (repos.filter (fun r => descriptionLong r.description)).length
    let readme_count := (repos.filter (fun r => truthy r.description)).length
    let readme_score := (readme_count : ℚ) / (repos.length : ℚ)
    let wiki_score := (wiki_count : ℚ) / (repos.length : ℚ)
    let description_score := (description_count : ℚ) / (repos.length : ℚ)
    readme_score * 0.5 + wiki_score * 0.3 + description_score * 0.2

/-- Size contribution of one repository inside
`_calculate_code_quality_metric` (1 below 1000, 0.5 below 5000, else 0). -/
def size_points (size : Nat) : ℚ :=
  if size < 1000 then 1 else if size < 5000 then 0.5 else 0

/-- `GitHubProfileAnalyzer._calculate_code_quality_metric`. -/
def calculate_code_quality_metric (repos : List Repo) : ℚ :=
  if repos.isEmpty then 0
  else
    let total_stars := (repos.map Repo.stargazers_count).sum
    let avg_stars := (total_stars : ℚ) / (repos.length : ℚ)
    let issues_count := (repos.filter Repo.has_issues).length
    let size_score := (repos.map (fun r => size_points r.size)).sum / (repos.length : ℚ)
    let star_score := min (avg_stars / 10) 1
    let issue_score := (issues_count : ℚ) / (repos.length : ℚ)
    star_score * 0.4 + issue_score * 0.3 + size_score * 0.3

/-- The weight dict of `GitHubProfileAnalyzer.__init__`, in insertion order. -/
def weights : List (String × ℚ) :=
  [("activity", 0.3), ("diversity", 0.2), ("community", 0.2),
   ("documentation", 0.15), ("code_quality", 0.15)]

/-- The metrics dict built by `_calculate_metrics`, in insertion order. -/
def metricsList (m : Metrics) : List (String × ℚ) :=
  [("activity", m.activity), ("diversity", m.diversity), ("community", m.community),
   ("documentation", m.documentation), ("code_quality", m.code_quality)]

/-- `GitHubProfileAnalyzer._calculate_score`: iterate the weight dict,
index the metrics dict, scale by ten. -/
def calculate_score (metrics : Metrics) : ℚ :=
  (weights.foldl (fun total p => total + ((metricsList metrics).lookup p.1).getD 0 * p.2) 0) * 10

/-- `metric.replace('_', ' ')`: the pattern is the single character `_`,
so the replacement is a character-wise map. -/
def displayName (s : String) : String :=
  String.mk (s.data.map (fun c => if c = '_' then ' ' else c))

/-- The f-string percentage `(value*100):.0f`. -/
def formatPct (v : ℚ) : String := toString (roundHalfEven (v * 100))

/-- `GitHubProfileAnalyzer._get_strengths`. -/
def get_strengths (metrics : Metrics) : List String :=
  let strengths := (metricsList metrics).filterMap (fun p =>
    if p.2 ≥ 0.7 then
      some ("Strong " ++ displayName p.1 ++ " (" ++ formatPct p.2 ++ "%)")
    else none)
  if strengths.isEmpty then ["No significant strengths identified"] else strengths

/-- `GitHubProfileAnalyzer._get_weaknesses`. -/
def get_weaknesses (metrics : Metrics) : List String :=
  let weaknesses := (metricsList metrics).filterMap (fun p =>
    if p.2 ≤ 0.3 then
      some ("Weak " ++ displayName p.1 ++ " (" ++ formatPct p.2 ++ "%)")
    else none)
  if weaknesses.isEmpty then ["No significant weaknesses identified"] else weaknesses

/-- `GitHubProfileAnalyzer._get_recommendations`. -/
def get_recommendations (metrics : Metrics) : List String :=
  let recommendations :=
    (if metrics.activity < 0.4 then
      ["Increase your activity by making regular commits and repository updates"] else []) ++
    (if metrics.diversity < 0.4 then
      ["Expand your skill set by working with different programming languages"] else []) ++
    (if metrics.community < 0.4 then
      ["Engage more with the community by contributing to other projects and following developers"]
    else []) ++
    (if metrics.documentation < 0.4 then
      ["Improve documentation by adding README files, wikis, and clear descriptions"] else []) ++
    (if metrics.code_quality < 0.4 then
      ["Focus on code quality by creating smaller, focused repositories with good issue tracking"]
    else [])
  if recommendations.isEmpty then
    ["Keep doing what you\x27re doing! Your profile is well-balanced"]
  else recommendations

/-- `GitHubProfileAnalyzer._get_appreciation`. -/
def get_appreciation (score : ℚ) : String :=
  if score ≥ 8 then "Outstanding GitHub Profile! ðŸŽ‰"
  else if score ≥ 6 then "Great GitHub Profile! ðŸ‘"
  else if score ≥ 4 then "Good Start! Keep Improving! ðŸ’ª"
  else "Your GitHub Journey Has Just Begun! ðŸš€"

/-- `GitHubProfileAnalyzer._calculate_metrics`.  The dict literal computes
`activity` before `diversity`; a `KeyError` escaping from the diversity
metric aborts construction of the dict. -/
def calculate_metrics (clock : Nat → Int) (profile : Profile) (repos : List Repo)
    (contributions : List EventRec) : Except String Metrics :=
  match calculate_diversity_metric repos with
  | Except.error e => Except.error e
  | Except.ok d =>
    Except.ok
      { activity := calculate_activity_metric clock contributions repos
        diversity := d
        community := calculate_community_metric profile repos
        documentation := calculate_documentation_metric repos
        code_quality := calculate_code_quality_metric repos }

/-- `GitHubProfileAnalyzer.analyze_profile`, after the three fetches have
returned: the empty-repository precondition check, the metric engine, the
score composer, the feedback generator, and the result dict.  Any escaping
exception text is wrapped as `Analysis failed: ...`. -/
def analyze_profile (clock : Nat → Int) (profile : Profile) (repos : List Repo)
    (contributions : List EventRec) : Except String Bundle :=
  if repos.isEmpty then Except.error "Analysis failed: No repositories found for this user"
  else
    match calculate_metrics clock profile repos contributions with
    | Except.error e => Except.error ("Analysis failed: " ++ e)
    | Except.ok metrics =>
      let score := calculate_score metrics
      Except.ok
        { score := pyround2 score
          metrics := metrics
          strengths := get_strengths metrics
          weaknesses := get_weaknesses metrics
          recommendations := get_recommendations metrics
          appreciation := get_appreciation score
          avatar_url := profile.avatar_url.getD "" }


/-- Modelled from the spec: the testable property "Empty events list with
non-empty repositories: activity metric uses only the repo-recency term
(`0.4 * repo_score`), event term is 0", with `repo_score` as the spec
defines it, `min(recently-updated repo count / total repo count, 1.0)`. -/
def specActivityEmptyEvents (clock : Nat → Int) (repos : List Repo) : ℚ :=
  0.4 * min (((recentRepos clock repos 0).length : ℚ) / (repos.length : ℚ)) 1

/-- A frozen clock used by several concrete runs. -/
def clockC3 : Nat → Int := fun _ => 1000000000

/-- One repository updated at the analysis instant (recently updated). -/
def repoC3 : Repo :=
  { language := some (some "Python"), topics := none, forks_count := 0, fork := false,
    has_wiki := false, description := none, has_issues := false, stargazers_count := 0,
    size := 0, updated_at := 1000000000 }

/-- A repository record whose mapping misses the `language` key entirely. -/
def repoC9 : Repo :=
  { language := none, topics := none, forks_count := 0, fork := false,
    has_wiki := false, description := none, has_issues := false, stargazers_count := 0,
    size := 0, updated_at := 1000000000 }

/-- A repository record whose `language` key is present with value `None`
and whose `topics` key is absent. -/
def repoC9w : Repo :=
  { language := some none, topics := none, forks_count := 0, fork := false,
    has_wiki := false, description := none, has_issues := false, stargazers_count := 0,
    size := 0, updated_at := 1000000000 }

/-- The repository of the worked example of the spec: language Go, no
topics, no forks, not a fork, no wiki, null description, issues disabled,
no stars, size 500, updated 200 days before the analysis instant. -/
def repo8 : Repo :=
  { language := some (some "Go"), topics := some [], forks_count := 0, fork := false,
    has_wiki := false, description := none, has_issues := false, stargazers_count := 0,
    size := 500, updated_at := 1000000000 - 200 * 86400 }

/-- A generic well-formed single-repository fixture for witnesses. -/
def repoW : Repo :=
  { language := some (some "Go"), topics := some [], forks_count := 0, fork := false,
    has_wiki := false, description := none, has_issues := false, stargazers_count := 0,
    size := 500, updated_at := 982720000 }

/-- A clock stream that is constant at the analysis instant. -/
def clockC5a : Nat → Int := fun _ => 1000000000

/-- A clock stream that agrees with `clockC5a` on its first reading but has
advanced by 91 days at every later reading. -/
def clockC5b : Nat → Int := fun i => if i = 0 then 1000000000 else 1000000000 + 7862400

/-- A repository updated one second before the analysis instant: recently
updated for a clock reading at the instant, no longer recently updated for
a reading 91 days later. -/
def repoC5 : Repo :=
  { language := some (some "Python"), topics := none, forks_count := 0, fork := false,
    has_wiki := false, description := none, has_issues := false, stargazers_count := 0,
    size := 0, updated_at := 999999999 }

/-- One event created at the analysis instant. -/
def eventsC5 : List EventRec := [⟨1000000000⟩]

/-- A frozen clock for the rounding-boundary run. -/
def clockC7 : Nat → Int := fun _ => 1000000000

/-- A repository chosen so that the weighted metric sum lands in
[0.7995, 0.8): one language, ten topics, five forks, itself a fork, wiki
enabled, a 30-character description, issues enabled, ten stars, small size,
recently updated. -/
def repoC7 : Repo :=
  { language := some (some "Python"),
    topics := some ["t1", "t2", "t3", "t4", "t5", "t6", "t7", "t8", "t9", "t10"],
    forks_count := 5, fork := true, has_wiki := true,
    description := some "A long enough description text", has_issues := true,
    stargazers_count := 10, size := 500, updated_at := 1000000000 }

/-- Three followers and fifty followings, tuned for the rounding boundary. -/
def profileC7 : Profile := ⟨3, 50, none⟩

/-- Twenty-five events at the analysis instant, tuned for the rounding
boundary. -/
def eventsC7 : List EventRec := List.replicate 25 ⟨1000000000⟩

theorem calculate_score_eq (m : Metrics) :
    calculate_score m =
      (0.3 * m.activity + 0.2 * m.diversity + 0.2 * m.community +
        0.15 * m.documentation + 0.15 * m.code_quality) * 10 := by
  simp [calculate_score, weights, metricsList, List.lookup]
  ring

theorem weights_sum : (weights.map Prod.snd).sum = 1 := by
  simp [weights]
  norm_num

theorem roundHalfEven_nonneg {x : ℚ} (hx : 0 ≤ x) : 0 ≤ roundHalfEven x := by
  have h0 : (0 : Int) ≤ ⌊x⌋ := Int.floor_nonneg.2 hx
  unfold roundHalfEven
  split_ifs <;> omega

theorem roundHalfEven_le {x : ℚ} {n : Int} (hx : x ≤ (n : ℚ)) : roundHalfEven x ≤ n := by
  have hfl : ⌊x⌋ ≤ n := by
    have h := Int.floor_le_floor hx
    simpa using h
  have hfx : (⌊x⌋ : ℚ) ≤ x := Int.floor_le x
  unfold roundHalfEven
  split_ifs with h1 h2 h3
  · exact hfl
  · have hlt : (⌊x⌋ : ℚ) + 1 / 2 < x := by linarith
    have hne : ⌊x⌋ ≠ n := by
      intro he
      rw [he] at hlt
      linarith
    omega
  · exact hfl
  · have h12 : x - ⌊x⌋ = 1 / 2 := le_antisymm (not_lt.1 h2) (not_lt.1 h1)
    have hne : ⌊x⌋ ≠ n := by
      intro he
      rw [he] at h12
      have : x = (n : ℚ) + 1 / 2 := by linarith
      rw [this] at hx
      linarith
    omega

theorem pyround2_nonneg {x : ℚ} (hx : 0 ≤ x) : 0 ≤ pyround2 x := by
  have h := roundHalfEven_nonneg (show 0 ≤ x * 100 by positivity)
  unfold pyround2
  positivity

theorem pyround2_le_ten {x : ℚ} (hx : x ≤ 10) : pyround2 x ≤ 10 := by
  have h : roundHalfEven (x * 100) ≤ (1000 : Int) := roundHalfEven_le (by push_cast; linarith)
  unfold pyround2
  have h2 : ((roundHalfEven (x * 100) : ℚ)) ≤ 1000 := by exact_mod_cast h
  linarith

theorem min_ratio_nonneg (a b : ℚ) (ha : 0 ≤ a) (hb : 0 ≤ b) : 0 ≤ min (a / b) 1 :=
  le_min (div_nonneg ha hb) (by norm_num)

theorem min_ratio_le_one (a b : ℚ) : min (a / b) 1 ≤ 1 := min_le_right _ _

theorem calculate_activity_metric_mem (clock : Nat → Int) (es : List EventRec)
    (rs : List Repo) :
    0 ≤ calculate_activity_metric clock es rs ∧ calculate_activity_metric clock es rs ≤ 1 := by
  unfold calculate_activity_metric
  split_ifs with h1 h2
  · norm_num
  · have e1 := min_ratio_nonneg ((recentEvents clock es 0).length : ℚ) 30 (by positivity) (by norm_num)
    have e2 := min_ratio_le_one ((recentEvents clock es 0).length : ℚ) 30
    constructor <;> simp only [] <;> linarith
  · have e1 := min_ratio_nonneg ((recentEvents clock es 0).length : ℚ) 30 (by positivity) (by norm_num)
    have e2 := min_ratio_le_one ((recentEvents clock es 0).length : ℚ) 30
    have r1 := min_ratio_nonneg ((recentRepos clock rs es.length).length : ℚ) (rs.length : ℚ) (by positivity) (by positivity)
    have r2 := min_ratio_le_one ((recentRepos clock rs es.length).length : ℚ) (rs.length : ℚ)
    constructor <;> linarith

theorem calculate_community_metric_mem (p : Profile) (rs : List Repo) :
    0 ≤ calculate_community_metric p rs ∧ calculate_community_metric p rs ≤ 1 := by
  unfold calculate_community_metric
  have f1 := min_ratio_nonneg (p.followers : ℚ) 100 (by positivity) (by norm_num)
  have f2 := min_ratio_le_one (p.followers : ℚ) 100
  have g1 := min_ratio_nonneg (p.following : ℚ) 50 (by positivity) (by norm_num)
  have g2 := min_ratio_le_one (p.following : ℚ) 50
  have k1 := min_ratio_nonneg (((rs.map Repo.forks_count).sum : ℚ)) ((rs.length : ℚ) * 5)
    (by positivity) (by positivity)
  have k2 := min_ratio_le_one (((rs.map Repo.forks_count).sum : ℚ)) ((rs.length : ℚ) * 5)
  have c1 := min_ratio_nonneg (((rs.filter Repo.fork).length : ℚ)) ((rs.length : ℚ))
    (by positivity) (by positivity)
  have c2 := min_ratio_le_one (((rs.filter Repo.fork).length : ℚ)) ((rs.length : ℚ))
  split_ifs <;> constructor <;> linarith

theorem ratio_nonneg (a : Nat) (b : Nat) : 0 ≤ ((a : ℚ) / (b : ℚ)) := by positivity

theorem count_ratio_le_one {a b : Nat} (hab : a ≤ b) (hb : 0 < b) : ((a : ℚ) / (b : ℚ)) ≤ 1 := by
  rw [div_le_one (by exact_mod_cast hb)]
  exact_mod_cast hab

theorem calculate_documentation_metric_mem (rs : List Repo) :
    0 ≤ calculate_documentation_metric rs ∧ calculate_documentation_metric rs ≤ 1 := by
  unfold calculate_documentation_metric
  split_ifs with h
  · norm_num
  · have hlen : 0 < rs.length := by
      cases rs with
      | nil => simp at h
      | cons a l => simp
    have r1 := ratio_nonneg ((rs.filter (fun r => truthy r.description)).length) rs.length
    have r2 := count_ratio_le_one (List.length_filter_le (fun r => truthy r.description) rs) hlen
    have w1 := ratio_nonneg ((rs.filter Repo.has_wiki).length) rs.length
    have w2 := count_ratio_le_one (List.length_filter_le Repo.has_wiki rs) hlen
    have d1 := ratio_nonneg ((rs.filter (fun r => descriptionLong r.description)).length) rs.length
    have d2 := count_ratio_le_one (List.length_filter_le (fun r => descriptionLong r.description) rs) hlen
    constructor <;> linarith

theorem size_points_mem (n : Nat) : 0 ≤ size_points n ∧ size_points n ≤ 1 := by
  unfold size_points
  split_ifs <;> norm_num

theorem size_sum_mem (rs : List Repo) :
    0 ≤ (rs.map (fun r => size_points r.size)).sum ∧
      (rs.map (fun r => size_points r.size)).sum ≤ (rs.length : ℚ) := by
  induction rs with
  | nil => simp
  | cons r l ih =>
    have h := size_points_mem r.size
    simp only [List.map_cons, List.sum_cons, List.length_cons]
    push_cast
    constructor <;> linarith [ih.1, ih.2, h.1, h.2]

theorem calculate_code_quality_metric_mem (rs : List Repo) :
    0 ≤ calculate_code_quality_metric rs ∧ calculate_code_quality_metric rs ≤ 1 := by
  unfold calculate_code_quality_metric
  split_ifs with h
  · norm_num
  · have hlen : 0 < rs.length := by
      cases rs with
      | nil => simp at h
      | cons a l => simp
    have hlenq : (0 : ℚ) < (rs.length : ℚ) := by exact_mod_cast hlen
    have s1 := min_ratio_nonneg (((rs.map Repo.stargazers_count).sum : ℚ) / (rs.length : ℚ)) 10
      (by positivity) (by norm_num)
    have s2 := min_ratio_le_one (((rs.map Repo.stargazers_count).sum : ℚ) / (rs.length : ℚ)) 10
    have i1 := ratio_nonneg ((rs.filter Repo.has_issues).length) rs.length
    have i2 := count_ratio_le_one (List.length_filter_le Repo.has_issues rs) hlen
    have z := size_sum_mem rs
    have z1 : 0 ≤ (rs.map (fun r => size_points r.size)).sum / (rs.length : ℚ) :=
      div_nonneg z.1 (le_of_lt hlenq)
    have z2 : (rs.map (fun r => size_points r.size)).sum / (rs.length : ℚ) ≤ 1 := by
      rw [div_le_one hlenq]
      exact z.2
    constructor <;> linarith

theorem collect_languages_isOk {rs : List Repo} (h : ∀ r ∈ rs, r.language ≠ none) :
    ∃ l, collect_languages rs = Except.ok l := by
  induction rs with
  | nil => exact ⟨[], rfl⟩
  | cons r rs ih =>
    obtain ⟨l, hl⟩ := ih fun x hx => h x (List.mem_cons_of_mem r hx)
    have hr : r.language ≠ none := h r (List.mem_cons_self r rs)
    obtain ⟨lang, hlang⟩ := Option.ne_none_iff_exists'.1 hr
    cases lang with
    | none => exact ⟨l, by simp [collect_languages, hlang, hl]⟩
    | some s =>
      by_cases hs : s = ""
      · exact ⟨l, by simp [collect_languages, hlang, hl, hs]⟩
      · by_cases hm : s ∈ l
        · exact ⟨l, by simp [collect_languages, hlang, hl, hs, hm]⟩
        · exact ⟨s :: l, by simp [collect_languages, hlang, hl, hs, hm]⟩

theorem calculate_diversity_metric_ok {rs : List Repo} (h : ∀ r ∈ rs, r.language ≠ none) :
    ∃ v, calculate_diversity_metric rs = Except.ok v ∧ 0 ≤ v ∧ v ≤ 1 := by
  by_cases hrs : rs.isEmpty
  · exact ⟨0, by simp [calculate_diversity_metric, hrs], le_refl 0, by norm_num⟩
  · obtain ⟨l, hl⟩ := collect_languages_isOk h
    have l1 := min_ratio_nonneg ((l.length : ℚ)) 5 (by positivity) (by norm_num)
    have l2 := min_ratio_le_one ((l.length : ℚ)) 5
    have t1 := min_ratio_nonneg (((collect_topics rs).length : ℚ)) 10 (by positivity) (by norm_num)
    have t2 := min_ratio_le_one (((collect_topics rs).length : ℚ)) 10
    refine ⟨min ((l.length : ℚ) / 5) 1 * 0.7 + min (((collect_topics rs).length : ℚ) / 10) 1 * 0.3,
      by simp [calculate_diversity_metric, hrs, hl], ?_, ?_⟩ <;> norm_num <;> linarith

theorem calculate_metrics_ok_iff {clock : Nat → Int} {p : Profile} {rs : List Repo}
    {es : List EventRec} {m : Metrics} :
    calculate_metrics clock p rs es = Except.ok m ↔
      ∃ d, calculate_diversity_metric rs = Except.ok d ∧
        m = ⟨calculate_activity_metric clock es rs, d, calculate_community_metric p rs,
             calculate_documentation_metric rs, calculate_code_quality_metric rs⟩ := by
  unfold calculate_metrics
  rcases hd : calculate_diversity_metric rs with e | d <;> simp [hd, eq_comm]

theorem analyze_profile_ok_iff {clock : Nat → Int} {p : Profile} {rs : List Repo}
    {es : List EventRec} {b : Bundle} :
    analyze_profile clock p rs es = Except.ok b ↔
      rs.isEmpty = false ∧ ∃ m, calculate_metrics clock p rs es = Except.ok m ∧
        b = { score := pyround2 (calculate_score m), metrics := m,
              strengths := get_strengths m, weaknesses := get_weaknesses m,
              recommendations := get_recommendations m,
              appreciation := get_appreciation (calculate_score m),
              avatar_url := p.avatar_url.getD "" } := by
  unfold analyze_profile
  rcases hm : calculate_metrics clock p rs es with e | m <;>
    cases hrs : rs.isEmpty <;> simp [hrs, hm, eq_comm]


/-- Membership in the strengths list for any dict entry at or above the
0.7 threshold. -/
theorem mem_get_strengths (m : Metrics) (name : String) (v : ℚ)
    (hmem : (name, v) ∈ metricsList m) (hv : v ≥ 0.7) :
    ("Strong " ++ displayName name ++ " (" ++ formatPct v ++ "%)") ∈ get_strengths m := by
  simp only [get_strengths]
  have hx : ("Strong " ++ displayName name ++ " (" ++ formatPct v ++ "%)") ∈
      (metricsList m).filterMap (fun p =>
        if p.2 ≥ 0.7 then
          some ("Strong " ++ displayName p.1 ++ " (" ++ formatPct p.2 ++ "%)")
        else none) :=
    List.mem_filterMap.2 ⟨(name, v), hmem, by simp [hv]⟩
  split_ifs with hif
  · rw [List.isEmpty_iff] at hif
    rw [hif] at hx
    simp at hx
  · exact hx

/-- Membership in the weaknesses list for any dict entry at or below the
0.3 threshold. -/
theorem mem_get_weaknesses (m : Metrics) (name : String) (v : ℚ)
    (hmem : (name, v) ∈ metricsList m) (hv : v ≤ 0.3) :
    ("Weak " ++ displayName name ++ " (" ++ formatPct v ++ "%)") ∈ get_weaknesses m := by
  simp only [get_weaknesses]
  have hx : ("Weak " ++ displayName name ++ " (" ++ formatPct v ++ "%)") ∈
      (metricsList m).filterMap (fun p =>
        if p.2 ≤ 0.3 then
          some ("Weak " ++ displayName p.1 ++ " (" ++ formatPct p.2 ++ "%)")
        else none) :=
    List.mem_filterMap.2 ⟨(name, v), hmem, by simp [hv]⟩
  split_ifs with hif
  · rw [List.isEmpty_iff] at hif
    rw [hif] at hx
    simp at hx
  · exact hx

/-- The percentage format of the strength boundary value. -/
theorem formatPct_seventy : formatPct 0.7 = "70" := by
  have h1 : roundHalfEven ((0.7 : ℚ) * 100) = 70 := by
    unfold roundHalfEven
    norm_num
  rw [formatPct, h1]
  decide

/-- The percentage format of the weakness boundary value. -/
theorem formatPct_thirty : formatPct 0.3 = "30" := by
  have h1 : roundHalfEven ((0.3 : ℚ) * 100) = 30 := by
    unfold roundHalfEven
    norm_num
  rw [formatPct, h1]
  decide

/-- C1: the score in the result bundle equals
round(10 * (0.30*activity + 0.20*diversity + 0.20*community +
0.15*documentation + 0.15*code_quality), 2) over the computed sub-metrics,
the weight table sums to exactly 1.0, and for every metric set with all
five values in [0,1] the rounded composite lies in [0,10]. -/
theorem score_formula_weights_and_range :
    (weights.map Prod.snd).sum = 1 ∧
    (∀ (clock : Nat → Int) (p : Profile) (rs : List Repo) (es : List EventRec) (b : Bundle),
      analyze_profile clock p rs es = Except.ok b →
        b.score = pyround2 (10 * (0.30 * b.metrics.activity + 0.20 * b.metrics.diversity +
          0.20 * b.metrics.community + 0.15 * b.metrics.documentation +
          0.15 * b.metrics.code_quality))) ∧
    (∀ m : Metrics, 0 ≤ m.activity → m.activity ≤ 1 → 0 ≤ m.diversity → m.diversity ≤ 1 →
      0 ≤ m.community → m.community ≤ 1 → 0 ≤ m.documentation → m.documentation ≤ 1 →
      0 ≤ m.code_quality → m.code_quality ≤ 1 →
      0 ≤ pyround2 (calculate_score m) ∧ pyround2 (calculate_score m) ≤ 10) := by
  refine ⟨weights_sum, ?_, ?_⟩
  · intro clock p rs es b hb
    obtain ⟨-, m, -, rfl⟩ := analyze_profile_ok_iff.1 hb
    show pyround2 (calculate_score m) = _
    congr 1
    rw [calculate_score_eq]
    ring
  · intro m h1 h2 h3 h4 h5 h6 h7 h8 h9 h10
    constructor
    · apply pyround2_nonneg
      rw [calculate_score_eq]
      linarith
    · apply pyround2_le_ten
      rw [calculate_score_eq]
      linarith

/-- Witness for C1: the all-ones metric set satisfies the range bound. -/
theorem score_formula_weights_and_range_witness :
    0 ≤ pyround2 (calculate_score ⟨1, 1, 1, 1, 1⟩) ∧
      pyround2 (calculate_score ⟨1, 1, 1, 1, 1⟩) ≤ 10 :=
  score_formula_weights_and_range.2.2 ⟨1, 1, 1, 1, 1⟩ (by norm_num) (by norm_num)
    (by norm_num) (by norm_num) (by norm_num) (by norm_num) (by norm_num) (by norm_num)
    (by norm_num) (by norm_num)

/-- C2: for every conforming input with a non-empty repository collection
whose records all carry the `language` key, the metric engine succeeds and
each of the five sub-metrics lies in the closed interval [0,1] — in
particular the documentation metric, whose ratios are not explicitly
clamped. -/
theorem submetrics_unit_interval (clock : Nat → Int) (p : Profile) (rs : List Repo)
    (es : List EventRec) (_hne : rs ≠ []) (hlang : ∀ r ∈ rs, r.language ≠ none) :
    ∃ m, calculate_metrics clock p rs es = Except.ok m ∧
      (0 ≤ m.activity ∧ m.activity ≤ 1) ∧ (0 ≤ m.diversity ∧ m.diversity ≤ 1) ∧
      (0 ≤ m.community ∧ m.community ≤ 1) ∧ (0 ≤ m.documentation ∧ m.documentation ≤ 1) ∧
      (0 ≤ m.code_quality ∧ m.code_quality ≤ 1) := by
  obtain ⟨d, hd, hd0, hd1⟩ := calculate_diversity_metric_ok hlang
  exact ⟨_, calculate_metrics_ok_iff.2 ⟨d, hd, rfl⟩,
    calculate_activity_metric_mem clock es rs, ⟨hd0, hd1⟩,
    calculate_community_metric_mem p rs, calculate_documentation_metric_mem rs,
    calculate_code_quality_metric_mem rs⟩

/-- Witness for C2 at a concrete one-repository input. -/
theorem submetrics_unit_interval_witness :
    ∃ m, calculate_metrics (fun _ => 1000000000) ⟨0, 0, none⟩ [repoW] [] = Except.ok m ∧
      (0 ≤ m.activity ∧ m.activity ≤ 1) ∧ (0 ≤ m.diversity ∧ m.diversity ≤ 1) ∧
      (0 ≤ m.community ∧ m.community ≤ 1) ∧ (0 ≤ m.documentation ∧ m.documentation ≤ 1) ∧
      (0 ≤ m.code_quality ∧ m.code_quality ≤ 1) :=
  submetrics_unit_interval (fun _ => 1000000000) ⟨0, 0, none⟩ [repoW] []
    (by simp [repoW]) (by decide)

/-- C3 counterexample: with an empty event list and one recently updated
repository the code returns activity 0.0, while the claimed value
`0.4 * repo_score` is 0.4. -/
theorem empty_events_activity_counterexample :
    calculate_activity_metric clockC3 [] [repoC3] ≠ specActivityEmptyEvents clockC3 [repoC3] := by
  have hL : calculate_activity_metric clockC3 [] [repoC3] = 0 := by
    simp [calculate_activity_metric]
  have hR : specActivityEmptyEvents clockC3 [repoC3] = 0.4 := by
    simp [specActivityEmptyEvents, recentRepos, clockC3, repoC3, min_def]
  rw [hL, hR]
  norm_num

/-- C3 as amended: when the event collection is empty the activity metric
is 0.0 for every repository collection — the function returns before the
repo-recency term is computed. -/
theorem empty_events_activity_zero (clock : Nat → Int) (repos : List Repo) :
    calculate_activity_metric clock [] repos = 0 := rfl

/-- C4: with an empty repository collection the analysis produces the
precondition failure, whatever the profile and event inputs contain, and no
result bundle. -/
theorem empty_repos_precondition_error (clock : Nat → Int) (p : Profile)
    (es : List EventRec) :
    analyze_profile clock p [] es =
      Except.error "Analysis failed: No repositories found for this user" := rfl

/-- C5 counterexample: two clock streams that agree on their first reading
(the "now" fixed at the start of the call) but differ on a later reading
drive the same frozen inputs to different result bundles, because
`datetime.now()` is re-sampled for every comparison. -/
theorem single_now_reference_counterexample :
    clockC5a 0 = clockC5b 0 ∧
      analyze_profile clockC5a ⟨0, 0, none⟩ [repoC5] eventsC5 ≠
        analyze_profile clockC5b ⟨0, 0, none⟩ [repoC5] eventsC5 := by
  refine ⟨rfl, ?_⟩
  intro h
  have hmetA : calculate_metrics clockC5a ⟨0, 0, none⟩ [repoC5] eventsC5
      = Except.ok ⟨0.42, 0.14, 0, 0, 0.3⟩ := by
    simp [calculate_metrics, calculate_diversity_metric, collect_languages, collect_topics,
      calculate_activity_metric, recentEvents, recentRepos, calculate_community_metric,
      calculate_documentation_metric, calculate_code_quality_metric, repoC5, eventsC5,
      clockC5a, size_points, truthy, descriptionLong, min_def]
    norm_num
  have hmetB : calculate_metrics clockC5b ⟨0, 0, none⟩ [repoC5] eventsC5
      = Except.ok ⟨0.02, 0.14, 0, 0, 0.3⟩ := by
    simp [calculate_metrics, calculate_diversity_metric, collect_languages, collect_topics,
      calculate_activity_metric, recentEvents, recentRepos, calculate_community_metric,
      calculate_documentation_metric, calculate_code_quality_metric, repoC5, eventsC5,
      clockC5b, size_points, truthy, descriptionLong, min_def]
    norm_num
  have hA : (analyze_profile clockC5a ⟨0, 0, none⟩ [repoC5] eventsC5).toOption.map
      (fun b => b.metrics.activity) = some 0.42 := by
    simp [analyze_profile, hmetA, Except.toOption]
  have hB : (analyze_profile clockC5b ⟨0, 0, none⟩ [repoC5] eventsC5).toOption.map
      (fun b => b.metrics.activity) = some 0.02 := by
    simp [analyze_profile, hmetB, Except.toOption]
  have hproj : (analyze_profile clockC5a ⟨0, 0, none⟩ [repoC5] eventsC5).toOption.map
      (fun b => b.metrics.activity)
      = (analyze_profile clockC5b ⟨0, 0, none⟩ [repoC5] eventsC5).toOption.map
      (fun b => b.metrics.activity) := by rw [h]
  rw [hA, hB] at hproj
  have hv : (0.42 : ℚ) = 0.02 := Option.some.inj hproj
  norm_num at hv

/-- C5 as amended: the engine is deterministic in its inputs together with
the full stream of clock readings observed during the call — two
invocations whose clock readings coincide pointwise yield identical result
bundles. -/
theorem frozen_clock_deterministic (clock1 clock2 : Nat → Int) (p : Profile)
    (rs : List Repo) (es : List EventRec) (h : ∀ i, clock1 i = clock2 i) :
    analyze_profile clock1 p rs es = analyze_profile clock2 p rs es := by
  have hc : clock1 = clock2 := funext h
  rw [hc]

/-- Witness for the amended C5 at two syntactically distinct but pointwise
equal clocks. -/
theorem frozen_clock_deterministic_witness :
    analyze_profile (fun _ => 1000000000) ⟨0, 0, none⟩ [repoW] [] =
      analyze_profile (fun i => 1000000000 + 0 * i) ⟨0, 0, none⟩ [repoW] [] :=
  frozen_clock_deterministic _ _ _ _ _ (fun i => by ring)

/-- C6: a metric at exactly 0.70 is emitted in the strengths list, one at
exactly 0.30 in the weaknesses list, one at exactly 0.40 contributes no
recommendation, and when no metric qualifies each list is the single
placeholder string. -/
theorem feedback_threshold_boundaries (m : Metrics) :
    (m.activity = 0.7 → "Strong activity (70%)" ∈ get_strengths m) ∧
    (m.diversity = 0.7 → "Strong diversity (70%)" ∈ get_strengths m) ∧
    (m.community = 0.7 → "Strong community (70%)" ∈ get_strengths m) ∧
    (m.documentation = 0.7 → "Strong documentation (70%)" ∈ get_strengths m) ∧
    (m.code_quality = 0.7 → "Strong code quality (70%)" ∈ get_strengths m) ∧
    (m.activity = 0.3 → "Weak activity (30%)" ∈ get_weaknesses m) ∧
    (m.diversity = 0.3 → "Weak diversity (30%)" ∈ get_weaknesses m) ∧
    (m.community = 0.3 → "Weak community (30%)" ∈ get_weaknesses m) ∧
    (m.documentation = 0.3 → "Weak documentation (30%)" ∈ get_weaknesses m) ∧
    (m.code_quality = 0.3 → "Weak code quality (30%)" ∈ get_weaknesses m) ∧
    (m.activity = 0.4 →
      "Increase your activity by making regular commits and repository updates"
        ∉ get_recommendations m) ∧
    (m.diversity = 0.4 →
      "Expand your skill set by working with different programming languages"
        ∉ get_recommendations m) ∧
    (m.community = 0.4 →
      "Engage more with the community by contributing to other projects and following developers"
        ∉ get_recommendations m) ∧
    (m.documentation = 0.4 →
      "Improve documentation by adding README files, wikis, and clear descriptions"
        ∉ get_recommendations m) ∧
    (m.code_quality = 0.4 →
      "Focus on code quality by creating smaller, focused repositories with good issue tracking"
        ∉ get_recommendations m) ∧
    ((∀ pm ∈ metricsList m, pm.2 < 0.7) →
      get_strengths m = ["No significant strengths identified"]) ∧
    ((∀ pm ∈ metricsList m, 0.3 < pm.2) →
      get_weaknesses m = ["No significant weaknesses identified"]) ∧
    (0.4 ≤ m.activity → 0.4 ≤ m.diversity → 0.4 ≤ m.community → 0.4 ≤ m.documentation →
      0.4 ≤ m.code_quality →
      get_recommendations m = ["Keep doing what you\x27re doing! Your profile is well-balanced"]) := by
  refine ⟨?_, ?_, ?_, ?_, ?_, ?_, ?_, ?_, ?_, ?_, ?_, ?_, ?_, ?_, ?_, ?_, ?_, ?_⟩
  · intro h
    have hx := mem_get_strengths m "activity" 0.7
      (by simp [metricsList, h]) (by norm_num)
    rw [formatPct_seventy] at hx
    rwa [show ("Strong " ++ displayName "activity" ++ " (" ++ "70" ++ "%)")
      = "Strong activity (70%)" by decide] at hx
  · intro h
    have hx := mem_get_strengths m "diversity" 0.7
      (by simp [metricsList, h]) (by norm_num)
    rw [formatPct_seventy] at hx
    rwa [show ("Strong " ++ displayName "diversity" ++ " (" ++ "70" ++ "%)")
      = "Strong diversity (70%)" by decide] at hx
  · intro h
    have hx := mem_get_strengths m "community" 0.7
      (by simp [metricsList, h]) (by norm_num)
    rw [formatPct_seventy] at hx
    rwa [show ("Strong " ++ displayName "community" ++ " (" ++ "70" ++ "%)")
      = "Strong community (70%)" by decide] at hx
  · intro h
    have hx := mem_get_strengths m "documentation" 0.7
      (by simp [metricsList, h]) (by norm_num)
    rw [formatPct_seventy] at hx
    rwa [show ("Strong " ++ displayName "documentation" ++ " (" ++ "70" ++ "%)")
      = "Strong documentation (70%)" by decide] at hx
  · intro h
    have hx := mem_get_strengths m "code_quality" 0.7
      (by simp [metricsList, h]) (by norm_num)
    rw [formatPct_seventy] at hx
    rwa [show ("Strong " ++ displayName "code_quality" ++ " (" ++ "70" ++ "%)")
      = "Strong code quality (70%)" by decide] at hx
  · intro h
    have hx := mem_get_weaknesses m "activity" 0.3
      (by simp [metricsList, h]) (by norm_num)
    rw [formatPct_thirty] at hx
    rwa [show ("Weak " ++ displayName "activity" ++ " (" ++ "30" ++ "%)")
      = "Weak activity (30%)" by decide] at hx
  · intro h
    have hx := mem_get_weaknesses m "diversity" 0.3
      (by simp [metricsList, h]) (by norm_num)
    rw [formatPct_thirty] at hx
    rwa [show ("Weak " ++ displayName "diversity" ++ " (" ++ "30" ++ "%)")
      = "Weak diversity (30%)" by decide] at hx
  · intro h
    have hx := mem_get_weaknesses m "community" 0.3
      (by simp [metricsList, h]) (by norm_num)
    rw [formatPct_thirty] at hx
    rwa [show ("Weak " ++ displayName "community" ++ " (" ++ "30" ++ "%)")
      = "Weak community (30%)" by decide] at hx
  · intro h
    have hx := mem_get_weaknesses m "documentation" 0.3
      (by simp [metricsList, h]) (by norm_num)
    rw [formatPct_thirty] at hx
    rwa [show ("Weak " ++ displayName "documentation" ++ " (" ++ "30" ++ "%)")
      = "Weak documentation (30%)" by decide] at hx
  · intro h
    have hx := mem_get_weaknesses m "code_quality" 0.3
      (by simp [metricsList, h]) (by norm_num)
    rw [formatPct_thirty] at hx
    rwa [show ("Weak " ++ displayName "code_quality" ++ " (" ++ "30" ++ "%)")
      = "Weak code quality (30%)" by decide] at hx
  · intro h
    simp only [get_recommendations, h]
    rw [if_neg (lt_irrefl (0.4 : ℚ))]
    split_ifs <;> decide
  · intro h
    simp only [get_recommendations, h]
    rw [if_neg (lt_irrefl (0.4 : ℚ))]
    split_ifs <;> decide
  · intro h
    simp only [get_recommendations, h]
    rw [if_neg (lt_irrefl (0.4 : ℚ))]
    split_ifs <;> decide
  · intro h
    simp only [get_recommendations, h]
    rw [if_neg (lt_irrefl (0.4 : ℚ))]
    split_ifs <;> decide
  · intro h
    simp only [get_recommendations, h]
    rw [if_neg (lt_irrefl (0.4 : ℚ))]
    split_ifs <;> decide
  · intro hall
    have h1 : ¬ ((0.7 : ℚ) ≤ m.activity) :=
      not_le.2 (hall ("activity", m.activity) (by simp [metricsList]))
    have h2 : ¬ ((0.7 : ℚ) ≤ m.diversity) :=
      not_le.2 (hall ("diversity", m.diversity) (by simp [metricsList]))
    have h3 : ¬ ((0.7 : ℚ) ≤ m.community) :=
      not_le.2 (hall ("community", m.community) (by simp [metricsList]))
    have h4 : ¬ ((0.7 : ℚ) ≤ m.documentation) :=
      not_le.2 (hall ("documentation", m.documentation) (by simp [metricsList]))
    have h5 : ¬ ((0.7 : ℚ) ≤ m.code_quality) :=
      not_le.2 (hall ("code_quality", m.code_quality) (by simp [metricsList]))
    simp [get_strengths, metricsList, h1, h2, h3, h4, h5]
  · intro hall
    have h1 : ¬ (m.activity ≤ (0.3 : ℚ)) :=
      not_le.2 (hall ("activity", m.activity) (by simp [metricsList]))
    have h2 : ¬ (m.diversity ≤ (0.3 : ℚ)) :=
      not_le.2 (hall ("diversity", m.diversity) (by simp [metricsList]))
    have h3 : ¬ (m.community ≤ (0.3 : ℚ)) :=
      not_le.2 (hall ("community", m.community) (by simp [metricsList]))
    have h4 : ¬ (m.documentation ≤ (0.3 : ℚ)) :=
      not_le.2 (hall ("documentation", m.documentation) (by simp [metricsList]))
    have h5 : ¬ (m.code_quality ≤ (0.3 : ℚ)) :=
      not_le.2 (hall ("code_quality", m.code_quality) (by simp [metricsList]))
    simp [get_weaknesses, metricsList, h1, h2, h3, h4, h5]
  · intro h1 h2 h3 h4 h5
    simp [get_recommendations, not_lt.2 h1, not_lt.2 h2, not_lt.2 h3, not_lt.2 h4,
      not_lt.2 h5]

/-- Witness for C6 at the metric set (0.7, 0.3, 0.5, 0.5, 0.4). -/
theorem feedback_threshold_boundaries_witness :
    "Strong activity (70%)" ∈ get_strengths ⟨0.7, 0.3, 0.5, 0.5, 0.4⟩ ∧
    "Weak diversity (30%)" ∈ get_weaknesses ⟨0.7, 0.3, 0.5, 0.5, 0.4⟩ ∧
    "Focus on code quality by creating smaller, focused repositories with good issue tracking"
      ∉ get_recommendations ⟨0.7, 0.3, 0.5, 0.5, 0.4⟩ :=
  ⟨(feedback_threshold_boundaries ⟨0.7, 0.3, 0.5, 0.5, 0.4⟩).1 rfl,
   (feedback_threshold_boundaries ⟨0.7, 0.3, 0.5, 0.5, 0.4⟩).2.2.2.2.2.2.1 rfl,
   (feedback_threshold_boundaries ⟨0.7, 0.3, 0.5, 0.5, 0.4⟩).2.2.2.2.2.2.2.2.2.2.2.2.2.2.1 rfl⟩

/-- C7 counterexample: a concrete input whose unrounded composite score is
7.998 produces a bundle whose reported score is 8.0 yet whose appreciation
is the second-tier message, because the appreciation is selected from the
unrounded score. -/
theorem rounded_score_tier_counterexample :
    (analyze_profile clockC7 profileC7 [repoC7] eventsC7).toOption.map
      (fun b => (b.score, b.appreciation))
    = some (8, "Great GitHub Profile! ðŸ‘") := by
  have hmet : calculate_metrics clockC7 profileC7 [repoC7] eventsC7
      = Except.ok ⟨0.9, 0.44, 0.709, 1, 1⟩ := by
    simp [calculate_metrics, calculate_diversity_metric, collect_languages, collect_topics,
      calculate_activity_metric, recentEvents, recentRepos, calculate_community_metric,
      calculate_documentation_metric, calculate_code_quality_metric, repoC7, profileC7,
      eventsC7, clockC7, size_points, truthy, descriptionLong, min_def, List.replicate,
      show (20 < ("A long enough description text").length) = True by decide]
    norm_num
  have hsc : calculate_score ⟨0.9, 0.44, 0.709, 1, 1⟩ = 7.998 := by
    simp [calculate_score, weights, metricsList, List.lookup]
    norm_num
  have happ : get_appreciation (7.998 : ℚ) = "Great GitHub Profile! ðŸ‘" := by
    rw [get_appreciation, if_neg (by norm_num), if_pos (by norm_num)]
  simp [analyze_profile, hmet, hsc, happ, pyround2, roundHalfEven, Except.toOption]
  norm_num [Int.fract]

/-- C7 as amended: the appreciation string in the bundle is the four-tier
bucket (at 8, 6 and 4) of the unrounded composite score, not of the rounded
score reported in the bundle. -/
theorem appreciation_unrounded_score :
    (∀ (clock : Nat → Int) (p : Profile) (rs : List Repo) (es : List EventRec) (b : Bundle),
        analyze_profile clock p rs es = Except.ok b →
          b.appreciation = get_appreciation (calculate_score b.metrics)) ∧
    (∀ s : ℚ,
      (8 ≤ s → get_appreciation s = "Outstanding GitHub Profile! ðŸŽ‰") ∧
      (6 ≤ s → s < 8 → get_appreciation s = "Great GitHub Profile! ðŸ‘") ∧
      (4 ≤ s → s < 6 → get_appreciation s = "Good Start! Keep Improving! ðŸ’ª") ∧
      (s < 4 → get_appreciation s = "Your GitHub Journey Has Just Begun! ðŸš€")) := by
  constructor
  · intro clock p rs es b hb
    obtain ⟨-, m, -, rfl⟩ := analyze_profile_ok_iff.1 hb
    rfl
  · intro s
    unfold get_appreciation
    refine ⟨?_, ?_, ?_, ?_⟩ <;> intros <;> split_ifs <;> first | rfl | linarith

/-- Witness for the amended C7 at the score 5. -/
theorem appreciation_unrounded_score_witness :
    get_appreciation 5 = "Good Start! Keep Improving! ðŸ’ª" :=
  (appreciation_unrounded_score.2 5).2.2.1 (by norm_num) (by norm_num)

/-- C8: on the worked example of the spec (one Go repository, empty events,
zero-follower profile) the engine yields activity 0, diversity 0.14,
community 0, documentation 0, code quality 0.3 and composite score 0.73. -/
theorem example_go_repo_bundle :
    (analyze_profile (fun _ => 1000000000) ⟨0, 0, none⟩ [repo8] []).toOption.map
      (fun b => (b.metrics.activity, b.metrics.diversity, b.metrics.community,
                 b.metrics.documentation, b.metrics.code_quality, b.score))
    = some (0, 0.14, 0, 0, 0.3, 0.73) := by
  have hsc : calculate_score ⟨0, 0.14, 0, 0, 0.3⟩ = 0.73 := by
    simp [calculate_score, weights, metricsList, List.lookup]
    norm_num
  have hmet : calculate_metrics (fun _ => 1000000000) ⟨0, 0, none⟩ [repo8] []
      = Except.ok ⟨0, 0.14, 0, 0, 0.3⟩ := by
    simp [calculate_metrics, calculate_diversity_metric, collect_languages, collect_topics,
      calculate_activity_metric, calculate_community_metric,
      calculate_documentation_metric, calculate_code_quality_metric, repo8, size_points,
      truthy, descriptionLong, min_def]
    norm_num
  simp [analyze_profile, hmet, hsc, pyround2, roundHalfEven, Except.toOption]
  norm_num [Int.fract]

/-- C9 counterexample: a repository record without the `language` key makes
the diversity metric raise the `KeyError` instead of returning a value, and
the whole analysis fails with the wrapped message. -/
theorem absent_language_key_counterexample :
    calculate_diversity_metric [repoC9] = Except.error "\x27language\x27" ∧
      analyze_profile clockC3 ⟨0, 0, none⟩ [repoC9] [] =
        Except.error "Analysis failed: \x27language\x27" := by
  constructor
  · simp [calculate_diversity_metric, collect_languages, repoC9]
  · simp [analyze_profile, calculate_metrics, calculate_diversity_metric,
      collect_languages, repoC9]

/-- C9 as amended: for every repository collection whose records all carry
the `language` key (its value may be null) — `topics` may be absent — the
diversity metric is total and returns a value in [0,1]. -/
theorem diversity_total_when_language_present (rs : List Repo)
    (h : ∀ r ∈ rs, r.language ≠ none) :
    ∃ v, calculate_diversity_metric rs = Except.ok v ∧ 0 ≤ v ∧ v ≤ 1 :=
  calculate_diversity_metric_ok h

/-- Witness for the amended C9: a record with a null language value and an
absent `topics` key. -/
theorem diversity_total_when_language_present_witness :
    ∃ v, calculate_diversity_metric [repoC9w] = Except.ok v ∧ 0 ≤ v ∧ v ≤ 1 :=
  diversity_total_when_language_present [repoC9w] (by decide)

/-- C10: whenever the analysis succeeds, the bundle field `avatar_url` is
the profile value when the key is present and the empty string when it is
absent — the absent key does not make the analysis fail. -/
theorem avatar_url_defaulting (clock : Nat → Int) (p : Profile) (rs : List Repo)
    (es : List EventRec) (hne : rs.isEmpty = false)
    (hlang : ∀ r ∈ rs, r.language ≠ none) :
    ∃ b, analyze_profile clock p rs es = Except.ok b ∧
      b.avatar_url = p.avatar_url.getD "" ∧
      (∀ u, p.avatar_url = some u → b.avatar_url = u) ∧
      (p.avatar_url = none → b.avatar_url = "") := by
  obtain ⟨d, hd, -, -⟩ := calculate_diversity_metric_ok hlang
  refine ⟨_, analyze_profile_ok_iff.2 ⟨hne, _, calculate_metrics_ok_iff.2 ⟨d, hd, rfl⟩, rfl⟩,
    rfl, ?_, ?_⟩
  · intro u hu
    simp [hu]
  · intro hu
    simp [hu]

/-- Witness for C10 at a profile without an `avatar_url` key. -/
theorem avatar_url_defaulting_witness :
    ∃ b, analyze_profile (fun _ => 1000000000) ⟨0, 0, none⟩ [repoW] [] = Except.ok b ∧
      b.avatar_url = (none : Option String).getD "" ∧
      (∀ u, (none : Option String) = some u → b.avatar_url = u) ∧
      ((none : Option String) = none → b.avatar_url = "") :=
  avatar_url_defaulting (fun _ => 1000000000) ⟨0, 0, none⟩ [repoW] []
    (by simp [repoW]) (by decide)


end GithubProfileAnalyzer
